import Mathlib

/-!
Verification development for a multi-session WhatsApp gateway
(Node.js/Express + Baileys + Supabase).  JavaScript strings are modelled
as `List Char`; JavaScript objects that only matter up to field access are
modelled as Lean structures; fallible/async effects are modelled by
explicit effect records.  Each definition is a shallow embedding of the
corresponding source function.
-/

namespace WaGateway

/-- jsTruthyStr models the JavaScript truthiness test on a value that is
either `null`/`undefined` (`none`) or a string: the empty string is falsy. -/
def jsTruthyStr (v : Option (List Char)) : Bool :=
  match v with
  | none => false
  | some s => !s.isEmpty

/-- jsOrNull models the JavaScript expression `v || null` on a
nullable-string value: a falsy value collapses to `null`. -/
def jsOrNull (v : Option (List Char)) : Option (List Char) :=
  if jsTruthyStr v then v else none

/-! Helpers from `whatsapp.service` (source: `src/unnamed/part_001`,
lines 324-407). -/

/-- formatPhoneNumber embeds the source function: a string already
containing `@` is returned unchanged; otherwise non-digits are stripped,
a leading `0` is replaced by `62`, a number not starting with `62` and of
length at most 12 is prefixed with `62`, and `@s.whatsapp.net` is appended. -/
def formatPhoneNumber (number : List Char) : List Char :=
  if '@' ∈ number then number
  else
    let cleaned := number.filter (·.isDigit)
    let cleaned := if ['0'].isPrefixOf cleaned then '6' :: '2' :: cleaned.drop 1 else cleaned
    let cleaned :=
      if ¬ ("62".toList.isPrefixOf cleaned) ∧ cleaned.length ≤ 12
      then '6' :: '2' :: cleaned else cleaned
    cleaned ++ "@s.whatsapp.net".toList

/-- ValidationResult embeds the `{ valid, message }` objects returned by the
validators in `whatsapp.service`. -/
structure ValidationResult where
  valid : Bool
  message : Option (List Char)
  deriving DecidableEq

/-- validatePhoneNumber embeds the source validator: a falsy number is
required, then the digit count must be between 10 and 15. -/
def validatePhoneNumber (number : Option (List Char)) : ValidationResult :=
  match number with
  | none => ⟨false, some "Phone number is required".toList⟩
  | some n =>
    if n.isEmpty then ⟨false, some "Phone number is required".toList⟩
    else
      let cleaned := n.filter (·.isDigit)
      if cleaned.length < 10 then ⟨false, some "Phone number too short".toList⟩
      else if cleaned.length > 15 then ⟨false, some "Phone number too long".toList⟩
      else ⟨true, none⟩

/-- JSArg models a JavaScript argument value as far as `validateMessage`
inspects it: `undef` covers `undefined`/`null` and other falsy non-strings,
`str` is a string, `nonString` is a truthy value of non-string type. -/
inductive JSArg where
  | undef : JSArg
  | str : List Char → JSArg
  | nonString : JSArg
  deriving DecidableEq

/-- validateMessage embeds the source validator: falsy message is required,
non-string is rejected, and strings longer than 4096 characters are rejected. -/
def validateMessage (message : JSArg) : ValidationResult :=
  match message with
  | .undef => ⟨false, some "Message is required".toList⟩
  | .str s =>
    if s.isEmpty then ⟨false, some "Message is required".toList⟩
    else if s.length > 4096 then ⟨false, some "Message too long (max 4096 characters)".toList⟩
    else ⟨true, none⟩
  | .nonString => ⟨false, some "Message must be a string".toList⟩

/-- SocketUser embeds the `socket.user` object of a Baileys socket
(`id` like `628xx:12@s.whatsapp.net`, optional display name). -/
structure SocketUser where
  id : List Char
  name : Option (List Char)
  deriving DecidableEq

/-- WASocket embeds the subset of a Baileys socket the embedded code
inspects: an allocation identity for the transport handle and the
authenticated user (null before pairing completes). -/
structure WASocket where
  handleId : Nat
  user : Option SocketUser
  deriving DecidableEq

/-- SendResult embeds the result object of `sendTextMessage`, together with
the observable effect on the socket: `sentTo` is `some jid` exactly when
`socket.sendMessage(jid, ...)` was invoked. -/
structure SendResult where
  success : Bool
  error : Option (List Char)
  sentTo : Option (List Char)
  deriving DecidableEq

/-- sendTextMessage embeds the source function: it validates the number,
then the message, then checks the socket and its authenticated user, and
only then performs the send. -/
def sendTextMessage (socket : Option WASocket) (number : Option (List Char))
    (message : JSArg) : SendResult :=
  let numVal := validatePhoneNumber number
  if !numVal.valid then ⟨false, numVal.message, none⟩
  else
    let msgVal := validateMessage message
    if !msgVal.valid then ⟨false, msgVal.message, none⟩
    else
      let n := number.getD []
      let jid := if '@' ∈ n then n else formatPhoneNumber n
      match socket with
      | none => ⟨false, some "WhatsApp not connected".toList, none⟩
      | some s =>
        match s.user with
        | none => ⟨false, some "WhatsApp not connected".toList, none⟩
        | some _ => ⟨true, none, some jid⟩

/-! Credential-store bulk deletion (source: `src/unnamed/part_001`,
lines 176-182 `clearSession`, which issues
`delete().filter('id', 'like', sessionId + ':%')`). -/

/-- likeMatch embeds the SQL LIKE pattern matcher used by the store for the
delete filter: `%` matches any (possibly empty) substring and `_` matches
exactly one character; other characters match themselves. -/
def likeMatch : List Char → List Char → Bool
  | [], s => s.isEmpty
  | p :: ps, s =>
    if p = '%' then
      match s with
      | [] => likeMatch ps []
      | _ :: s2 => likeMatch ps s || likeMatch (p :: ps) s2
    else
      match s with
      | [] => false
      | c :: s2 => if p = '_' then likeMatch ps s2 else p = c && likeMatch ps s2
  termination_by p s => (p.length, s.length)

/-- WaRow embeds one row of the `wa_sessions` table: a composite key
`sessionId:artifactType:artifactId` and an opaque stored value. -/
structure WaRow where
  id : List Char
  value : List Char
  deriving DecidableEq

/-- getKey embeds the composite-key builder
`(type, id) => sessionId + ':' + type + ':' + id`. -/
def getKey (sessionId artifactType artifactId : List Char) : List Char :=
  sessionId ++ ':' :: artifactType ++ ':' :: artifactId

/-- clearSession embeds the bulk wipe: the table rows matching the LIKE
pattern `sessionId:%` are deleted, the others are kept. -/
def clearSession (sessionId : List Char) (table : List WaRow) : List WaRow :=
  table.filter fun row => ! likeMatch (sessionId ++ [':', '%']) row.id

/-! Session registry and controller layer (sources:
`src/src/services/whatsapp/session.manager` in `connection.service.js`,
`src/src/middleware/session.middleware.js`,
`src/src/controllers/session.controller.js`). -/

/-- ConnectionState embeds the `connectionState` object of one session
record: pending QR payload, connection status string, resolved phone
number and display name (the latter two only set by the `open` branch of
the connection.update handler). -/
structure ConnectionState where
  qr : Option (List Char)
  connection : List Char
  phoneNumber : Option (List Char)
  name : Option (List Char)
  deriving DecidableEq

/-- SessionData embeds one session record held by the SessionManager:
the transport socket (null while disconnected), whether the
clearSession handler has been stored, and the connection state. -/
structure SessionData where
  socket : Option WASocket
  clearSessionHandler : Bool
  connectionState : ConnectionState
  deriving DecidableEq

instance : Inhabited SessionData :=
  ⟨⟨none, false, ⟨none, [], none, none⟩⟩⟩

/-- Registry embeds the SessionManager's `Map` from sessionId to session
record, as an association list where the first binding wins. -/
abbrev Registry := List (String × SessionData)

/-- registryGet embeds `sessionManager.getSession` (`null` when absent). -/
def registryGet (reg : Registry) (sessionId : String) : Option SessionData :=
  List.lookup sessionId reg

/-- registryDelete embeds `sessionManager.deleteSession`. -/
def registryDelete (reg : Registry) (sessionId : String) : Registry :=
  List.filter (fun kv => kv.1 ≠ sessionId) reg

/-- getConnectionStatus embeds the status snapshot builder of
`whatsapp.service`: `status: connection || 'disconnected'`,
`isConnected: connection === 'open'`, `phoneNumber: phoneNumber || null`,
`hasQR: !!qr`, `qr: qr || null`, `user: socket?.user || null`. -/
structure StatusSnapshot where
  status : List Char
  isConnected : Bool
  phoneNumber : Option (List Char)
  hasQR : Bool
  qr : Option (List Char)
  user : Option SocketUser
  deriving DecidableEq

def getConnectionStatus (socket : Option WASocket) (cs : ConnectionState) :
    StatusSnapshot :=
  { status := if cs.connection.isEmpty then "disconnected".toList else cs.connection
    isConnected := cs.connection = "open".toList
    phoneNumber := jsOrNull cs.phoneNumber
    hasQR := jsTruthyStr cs.qr
    qr := jsOrNull cs.qr
    user := socket.bind (·.user) }

/-- StatusResponse embeds the JSON body and HTTP status sent by the
`getStatus` controller. -/
structure StatusResponse where
  httpStatus : Nat
  success : Bool
  status : List Char
  isConnected : Bool
  phoneNumber : Option (List Char)
  hasQR : Bool
  deriving DecidableEq

/-- getStatus embeds the controller: with no session attached by the
middleware it answers the `disconnected` placeholder, otherwise it answers
the snapshot from getConnectionStatus; both with HTTP 200. -/
def getStatus (session : Option SessionData) : StatusResponse :=
  match session with
  | none => ⟨200, true, "disconnected".toList, false, none, false⟩
  | some sd =>
    let st := getConnectionStatus sd.socket sd.connectionState
    ⟨200, true, st.status, st.isConnected, st.phoneNumber, st.hasQR⟩

/-- QrResponse embeds the JSON body and HTTP status sent by the
`getQrCode` controller. -/
structure QrResponse where
  httpStatus : Nat
  success : Bool
  message : Option (List Char)
  qr : Option (List Char)
  deriving DecidableEq

/-- getQrCode embeds the controller: no session object answers
`Session not initialized`; a falsy pending QR answers
`Already connected, no QR needed` when the status is `open` and
`QR code not available yet, please wait...` otherwise; a pending QR is
answered with success; all with HTTP 200. -/
def getQrCode (session : Option SessionData) : QrResponse :=
  match session with
  | none => ⟨200, false, some "Session not initialized".toList, none⟩
  | some sd =>
    if !(jsTruthyStr sd.connectionState.qr) then
      ⟨200, false,
        some (if sd.connectionState.connection = "open".toList
          then "Already connected, no QR needed".toList
          else "QR code not available yet, please wait...".toList), none⟩
    else
      ⟨200, true, some "Scan this QR code with WhatsApp".toList, sd.connectionState.qr⟩

/-- EndpointPath models which route suffix the request path ends with; the
validateSession middleware whitelists `init`, `status` and `qr`. -/
inductive EndpointPath where
  | init | status | qr | logout | info
  deriving DecidableEq

/-- validateSession embeds the middleware: for an absent session on a
non-whitelisted path it short-circuits with HTTP 404 and a not-found error
body; otherwise it attaches the session (possibly `none`) and lets the
handler run. -/
def validateSession (reg : Registry) (sessionId : String) (path : EndpointPath) :
    Option (Option SessionData) :=
  match registryGet reg sessionId with
  | none =>
    if path = .init ∨ path = .status ∨ path = .qr then some none
    else none
  | some sd => some (some sd)

/-- LogoutResponse embeds the JSON body and HTTP status sent for the
logout route, whether by the middleware (404) or the controller. -/
structure LogoutResponse where
  httpStatus : Nat
  success : Bool
  message : Option (List Char)
  error : Option (List Char)
  deriving DecidableEq

/-- LogoutOutcome records the response together with the observable
effects of handling the logout route: the final Registry, whether
`socket.logout()` was attempted and whether the stored clearSession
handler was invoked. -/
structure LogoutOutcome where
  response : LogoutResponse
  registry : Registry
  socketLogoutCalled : Bool
  clearSessionCalled : Bool

/-- logoutEndpoint embeds the `/logout` route pipeline: validateSession
(the logout path is not whitelisted, so an absent session is rejected with
a 404 not-found error body and nothing else happens), then the controller
(best-effort `socket.logout()`, invoke the clearSession handler when set,
delete the Registry entry, answer success). -/
def logoutEndpoint (reg : Registry) (sessionId : String) : LogoutOutcome :=
  match validateSession reg sessionId .logout with
  | none =>
    ⟨⟨404, false, none, some ("Session not found. Please initialize first".toList)⟩,
      reg, false, false⟩
  | some none =>
    ⟨⟨404, false, none, some ("Session not found. Please initialize first".toList)⟩,
      reg, false, false⟩
  | some (some sd) =>
    ⟨⟨200, true, some "logged out successfully".toList, none⟩,
      registryDelete reg sessionId, sd.socket.isSome, sd.clearSessionHandler⟩

/-- statusEndpoint embeds the `/status` route pipeline: validateSession
(whitelisted path, so an absent session is passed through as `none`),
then the getStatus controller. -/
def statusEndpoint (reg : Registry) (sessionId : String) : StatusResponse :=
  match validateSession reg sessionId .status with
  | none => ⟨404, false, [], false, none, false⟩
  | some s => getStatus s

/-- qrEndpoint embeds the `/qr` route pipeline: validateSession
(whitelisted path), then the getQrCode controller. -/
def qrEndpoint (reg : Registry) (sessionId : String) : QrResponse :=
  match validateSession reg sessionId .qr with
  | none => ⟨404, false, none, none⟩
  | some s => getQrCode s

/-! Keep-alive supervisor sweep (source: `src/unnamed/part_000`,
lines 100-110). -/

/-- KeepAliveSession models one Registry entry as the keep-alive sweep
observes it: its id, whether a socket is attached, its connection status,
and whether `sendPresenceUpdate` throws for this session. -/
structure KeepAliveSession where
  id : String
  hasSocket : Bool
  connection : List Char
  pingThrows : Bool
  deriving DecidableEq

/-- keepAliveSweep embeds the 30-second supervisor: for every session with
a socket and status `open` it calls `sendPresenceUpdate('available')`
inside a per-session try/catch; the first output lists the sessions whose
ping call was made (in sweep order) and the second lists the sessions
whose ping threw and was caught and logged. -/
def keepAliveSweep : List KeepAliveSession → List String × List String
  | [] => ([], [])
  | s :: rest =>
    let out := keepAliveSweep rest
    if s.hasSocket ∧ s.connection = "open".toList then
      (s.id :: out.1, if s.pingThrows then s.id :: out.2 else out.2)
    else
      out

/-! Connection manager (source: `src/src/services/whatsapp/connection.service.js`). -/

/-- isHexChar tests one character of the UUID pattern `[0-9a-f]` with the
case-insensitive flag. -/
def isHexChar (c : Char) : Bool :=
  c.isDigit || ('a' ≤ c && c ≤ 'f') || ('A' ≤ c && c ≤ 'F')

/-- uuidRegexTest embeds `UUID_REGEX.test`: five dash-separated groups of
hex digits with lengths 8-4-4-4-12, anchored at both ends. -/
def uuidRegexTest (s : String) : Bool :=
  match s.splitOn "-" with
  | [a, b, c, d, e] =>
    a.length = 8 && b.length = 4 && c.length = 4 && d.length = 4 && e.length = 12
      && (a.toList.all isHexChar) && (b.toList.all isHexChar) && (c.toList.all isHexChar)
      && (d.toList.all isHexChar) && (e.toList.all isHexChar)
  | _ => false

/-- loggedOutReason embeds the Baileys constant `DisconnectReason.loggedOut`
(numeric value 401 in the client library). -/
def loggedOutReason : Nat := 401

/-- UpdateEvent embeds one `connection.update` event payload: the optional
new connection status, the optional QR string, and
`lastDisconnect?.error?.output?.statusCode`. -/
structure UpdateEvent where
  connection : Option (List Char)
  qr : Option (List Char)
  statusCode : Option Nat
  deriving DecidableEq

/-- UpdateEffects records the side effects the `connection.update` handler
performs besides mutating its session record: the durable user-session
upsert/remove calls, the scheduled reconnect delays (ms), whether the
clearSession credential wipe ran, and whether the Registry entry was
deleted. -/
structure UpdateEffects where
  upsertUserSession : Bool
  reconnectDelaysMs : List Nat
  removeUserSession : Bool
  clearSessionCalled : Bool
  registryDeleted : Bool
  deriving DecidableEq

/-- handleConnectionUpdate embeds the `connection.update` handler wired by
`connect` (lines 84-134): a truthy qr stores the payload and moves to
`waiting_qr`; a truthy connection status is copied into the record; on
`open` the QR is cleared and the identity resolved from `socket.user`; on
`close` the QR is cleared and the disconnect is classified — any status
code other than the logged-out reason schedules one 10-second reconnect,
while the logged-out reason wipes credentials, removes the durable
user-session mapping (for UUID session ids) and deletes the Registry
entry. -/
def handleConnectionUpdate (sessionId : String) (user : Option SocketUser)
    (u : UpdateEvent) (cs : ConnectionState) : ConnectionState × UpdateEffects :=
  let cs1 :=
    if jsTruthyStr u.qr then { cs with qr := u.qr, connection := "waiting_qr".toList }
    else cs
  match u.connection with
  | none => (cs1, ⟨false, [], false, false, false⟩)
  | some conn =>
    if conn.isEmpty then (cs1, ⟨false, [], false, false, false⟩)
    else
      let cs2 := { cs1 with connection := conn }
      if conn = "open".toList then
        ({ cs2 with
            qr := none
            phoneNumber := jsOrNull (user.map fun usr => usr.id.takeWhile (fun c => c ≠ ':'))
            name := jsOrNull (user.bind (·.name)) },
         ⟨uuidRegexTest sessionId, [], false, false, false⟩)
      else if conn = "close".toList then
        let cs3 := { cs2 with qr := none }
        if u.statusCode ≠ some loggedOutReason then
          (cs3, ⟨false, [10000], false, false, false⟩)
        else
          (cs3, ⟨false, [], uuidRegexTest sessionId, true, true⟩)
      else (cs2, ⟨false, [], false, false, false⟩)

/-- freshSessionData embeds lines 49-57 of `connect`: the record installed
for a new connection attempt has a null socket, no clearSession handler
yet, no QR, status `connecting`, the previous record's phone number
(through `|| null`), and no `name` property. -/
def freshSessionData (existing : Option SessionData) : SessionData :=
  { socket := none
    clearSessionHandler := false
    connectionState :=
      { qr := none
        connection := "connecting".toList
        phoneNumber := jsOrNull (existing.bind (·.connectionState.phoneNumber))
        name := none } }

/-- GatewayState models the mutable state touched by concurrent `connect`
invocations: the allocated record objects (`heap`, a record is identified
by its index so that a superseded invocation can still mutate the object
it closed over), the SessionManager map from sessionId to current record,
the number of transport handles created so far (`makeWASocket` calls), and
the handles whose listeners were detached and that were ended during
cleanup. -/
structure GatewayState where
  heap : List SessionData
  registry : List (String × Nat)
  nextHandle : Nat
  endedHandles : List Nat
  deriving DecidableEq

/-- ConnectPhase is the program counter of one `connect(sessionId)`
invocation, split at its `await` points: `start` is the synchronous prefix
(guard, cleanup, record install, lines 22-58), `awaitingVersion` suspends
on `fetchLatestBaileysVersion`, `awaitingAuth` suspends on
`useSupabaseAuthState`, and the final chunk (lines 65-161) stores the
clearSession handler, creates the socket and wires its listeners. `noop`
is an invocation that returned at the guard. -/
inductive ConnectPhase where
  | start
  | awaitingVersion (rid : Nat)
  | awaitingAuth (rid : Nat)
  | done (rid : Nat)
  | noop
  deriving DecidableEq

/-- installFresh embeds lines 49-58: allocate the fresh record object and
point the SessionManager at it. -/
def installFresh (sid : String) (existing : Option SessionData) (st : GatewayState) :
    ConnectPhase × GatewayState :=
  let rid := st.heap.length
  (.awaitingVersion rid,
   { heap := st.heap ++ [freshSessionData existing]
     registry := (sid, rid) :: st.registry
     nextHandle := st.nextHandle
     endedHandles := st.endedHandles })

/-- connectStep runs one event-loop chunk of a `connect(sessionId)`
invocation: the guard returns `noop` when the current record is `open` or
`connecting`; otherwise a stale socket is detached/ended before the fresh
record is installed; the two await boundaries change no state; the final
chunk stores the clearSession handler on the record object the invocation
holds (even if superseded), allocates a transport handle and stores it in
that record. -/
def connectStep (sid : String) (ph : ConnectPhase) (st : GatewayState) :
    ConnectPhase × GatewayState :=
  match ph with
  | .start =>
    match List.lookup sid st.registry with
    | some rid =>
      let sd := st.heap.getD rid default
      if sd.connectionState.connection = "open".toList
          ∨ sd.connectionState.connection = "connecting".toList then
        (.noop, st)
      else
        match sd.socket with
        | some sock =>
          let sd2 := { sd with socket := none }
          installFresh sid (some sd2)
            { st with
                heap := st.heap.set rid sd2
                endedHandles := sock.handleId :: st.endedHandles }
        | none => installFresh sid (some sd) st
    | none => installFresh sid none st
  | .awaitingVersion rid => (.awaitingAuth rid, st)
  | .awaitingAuth rid =>
    let sd := st.heap.getD rid default
    let sd2 := { sd with clearSessionHandler := true, socket := some ⟨st.nextHandle, none⟩ }
    (.done rid, { st with heap := st.heap.set rid sd2, nextHandle := st.nextHandle + 1 })
  | .done rid => (.done rid, st)
  | .noop => (.noop, st)

/-- emptyGateway is the state before any connect call: no records, no
registry entries, no handles. -/
def emptyGateway : GatewayState := ⟨[], [], 0, []⟩

/-- runTwoConnects executes the claim's race: a first `connect(sid)` call
starts on the empty state, and a second `connect(sid)` call's synchronous
prefix is interleaved at any of the three event-loop positions among the
first call's remaining chunks (before its version fetch resolves, between
its two awaits, or after it completed).  Returns the first invocation's
final phase, the second invocation's final phase, and the final state. -/
def runTwoConnects (sid : String) (k : Fin 3) : ConnectPhase × ConnectPhase × GatewayState :=
  let r1 := connectStep sid .start emptyGateway
  match k with
  | 0 =>
    let r2 := connectStep sid .start r1.2
    let r3 := connectStep sid r1.1 r2.2
    let r4 := connectStep sid r3.1 r3.2
    (r4.1, r2.1, r4.2)
  | 1 =>
    let r3 := connectStep sid r1.1 r1.2
    let r2 := connectStep sid .start r3.2
    let r4 := connectStep sid r3.1 r2.2
    (r4.1, r2.1, r4.2)
  | 2 =>
    let r3 := connectStep sid r1.1 r1.2
    let r4 := connectStep sid r3.1 r3.2
    let r2 := connectStep sid .start r4.2
    (r4.1, r2.1, r4.2)

/-! Binary-safe credential encoding (sources:
`src/src/services/whatsapp/auth.service.js` lines 7-46 and
`src/unnamed/part_001` lines 10-49: `bufferToBase64` / `base64ToBuffer`).
The byte-level codec models the collaborator calls
`Buffer.prototype.toString('base64')` and `Buffer.from(s, 'base64')` with
the standard base64 algorithm on well-formed inputs. -/

/-- b64Table is the standard base64 alphabet. -/
def b64Table : List Char :=
  "ABCDEFGHIJKLMNOPQRSTUVWXYZabcdefghijklmnopqrstuvwxyz0123456789+/".toList

/-- b64Char maps a sextet to its base64 character. -/
def b64Char (n : Nat) : Char := b64Table.getD n 'A'

/-- b64Index maps a base64 character back to its sextet. -/
def b64Index (c : Char) : Nat := List.findIdx (fun x => x = c) b64Table

/-- base64Encode models `Buffer.prototype.toString('base64')`: each group
of three bytes becomes four characters; a trailing group of one or two
bytes is padded with `=`. -/
def base64Encode : List Nat → List Char
  | [] => []
  | [a] => [b64Char (a / 4), b64Char (a % 4 * 16), '=', '=']
  | [a, b] => [b64Char (a / 4), b64Char (a % 4 * 16 + b / 16), b64Char (b % 16 * 4), '=']
  | a :: b :: c :: rest =>
    b64Char (a / 4) :: b64Char (a % 4 * 16 + b / 16) :: b64Char (b % 16 * 4 + c / 64)
      :: b64Char (c % 64) :: base64Encode rest

/-- base64Decode models `Buffer.from(s, 'base64')` on well-formed input:
each group of four characters yields three bytes, or fewer when padded
with `=`. -/
def base64Decode : List Char → List Nat
  | c1 :: c2 :: c3 :: c4 :: rest =>
    let s1 := b64Index c1
    let s2 := b64Index c2
    if c3 = '=' then [s1 * 4 + s2 / 16]
    else
      let s3 := b64Index c3
      if c4 = '=' then [s1 * 4 + s2 / 16, s2 % 16 * 16 + s3 / 4]
      else (s1 * 4 + s2 / 16) :: (s2 % 16 * 16 + s3 / 4) :: (s3 % 4 * 64 + b64Index c4)
        :: base64Decode rest
  | _ => []

mutual
/-- JSVal models a JSON-ish JavaScript value as the credential transforms
see it: `null`, a number, a string, a byte buffer (`Buffer` or
`Uint8Array`, both treated as their byte sequence), an array, or a plain
object. -/
inductive JSVal where
  | null : JSVal
  | num : Nat → JSVal
  | str : List Char → JSVal
  | buf : List Nat → JSVal
  | arr : JSArr → JSVal
  | obj : JSObj → JSVal
/-- JSArr is the spine of a JavaScript array of JSVal. -/
inductive JSArr where
  | nil : JSArr
  | cons : JSVal → JSArr → JSArr
/-- JSObj is the own-enumerable-property list of a plain JavaScript
object: key/value pairs in insertion order. -/
inductive JSObj where
  | nil : JSObj
  | cons : List Char → JSVal → JSObj → JSObj
end

/-- objLookup models JavaScript property access `obj[key]` on the modelled
own-property list. -/
def objLookup : JSObj → List Char → Option JSVal
  | .nil, _ => none
  | .cons k v tl, key => if k = key then some v else objLookup tl key

mutual
/-- bufferToBase64 embeds the source encoder: buffers become the tagged
wrapper `{ type: 'Buffer', data: <base64> }`; arrays and plain objects are
mapped recursively; anything else is returned as-is. -/
def bufferToBase64 : JSVal → JSVal
  | .null => .null
  | .num n => .num n
  | .str s => .str s
  | .buf bs => .obj (.cons "type".toList (.str "Buffer".toList)
      (.cons "data".toList (.str (base64Encode bs)) .nil))
  | .arr xs => .arr (bufferToBase64Arr xs)
  | .obj kvs => .obj (bufferToBase64Obj kvs)
/-- bufferToBase64Arr maps the encoder over an array. -/
def bufferToBase64Arr : JSArr → JSArr
  | .nil => .nil
  | .cons v tl => .cons (bufferToBase64 v) (bufferToBase64Arr tl)
/-- bufferToBase64Obj maps the encoder over an object's own properties. -/
def bufferToBase64Obj : JSObj → JSObj
  | .nil => .nil
  | .cons k v tl => .cons k (bufferToBase64 v) (bufferToBase64Obj tl)
end

/-- bufIndexObj models what JavaScript's for-in over a typed array
produces in the decoder's generic-object branch: a plain object keyed by
the decimal indices. -/
def bufIndexObj : List Nat → Nat → JSObj
  | [], _ => .nil
  | b :: bs, i => .cons (Nat.toDigits 10 i) (.num b) (bufIndexObj bs (i + 1))

mutual
/-- base64ToBuffer embeds the source decoder: a non-null object whose
`type` property is the string `Buffer` and whose `data` property is a
string becomes the decoded byte buffer; arrays and other objects are
mapped recursively (a raw typed array would be enumerated by index by the
for-in loop); primitives are returned as-is. -/
def base64ToBuffer : JSVal → JSVal
  | .null => .null
  | .num n => .num n
  | .str s => .str s
  | .buf bs => .obj (bufIndexObj bs 0)
  | .arr xs => .arr (base64ToBufferArr xs)
  | .obj kvs =>
    match objLookup kvs "type".toList, objLookup kvs "data".toList with
    | some (.str t), some (.str d) =>
      if t = "Buffer".toList then .buf (base64Decode d)
      else .obj (base64ToBufferObj kvs)
    | _, _ => .obj (base64ToBufferObj kvs)
/-- base64ToBufferArr maps the decoder over an array. -/
def base64ToBufferArr : JSArr → JSArr
  | .nil => .nil
  | .cons v tl => .cons (base64ToBuffer v) (base64ToBufferArr tl)
/-- base64ToBufferObj maps the decoder over an object's own properties. -/
def base64ToBufferObj : JSObj → JSObj
  | .nil => .nil
  | .cons k v tl => .cons k (base64ToBuffer v) (base64ToBufferObj tl)
end

mutual
/-- isPureVal captures the claim's domain: values composed of arbitrarily
nested plain objects, arrays, byte buffers (with in-range bytes) and
`null` — no strings or numbers. -/
def isPureVal : JSVal → Bool
  | .null => true
  | .num _ => false
  | .str _ => false
  | .buf bs => bs.all (· < 256)
  | .arr xs => isPureArr xs
  | .obj kvs => isPureObj kvs
/-- isPureArr checks every array element. -/
def isPureArr : JSArr → Bool
  | .nil => true
  | .cons v tl => isPureVal v && isPureArr tl
/-- isPureObj checks every property value. -/
def isPureObj : JSObj → Bool
  | .nil => true
  | .cons _ v tl => isPureVal v && isPureObj tl
end

/-- sampleNested is a concrete deeply nested (five levels) mixed value
with a zero-length buffer, an empty object, an empty array and null. -/
def sampleNested : JSVal :=
  .obj (.cons "a".toList
    (.arr (.cons (.buf [0, 255, 7])
      (.cons (.obj .nil)
        (.cons .null
          (.cons (.arr .nil)
            (.cons (.buf []) .nil))))))
    (.cons "b".toList
      (.obj (.cons "c".toList
        (.arr (.cons (.obj (.cons "d".toList (.buf [1, 2]) .nil)) .nil))
        .nil))
      .nil))

/-! Theorems. -/

/-- Helper: the output of formatPhoneNumber always contains an at-sign. -/
theorem formatPhoneNumber_has_at (n : List Char) : '@' ∈ formatPhoneNumber n := by
  unfold formatPhoneNumber
  split
  · assumption
  · exact List.mem_append_right _ (by decide)

/-- Helper: an input containing an at-sign is returned unchanged. -/
theorem formatPhoneNumber_of_mem (n : List Char) (h : '@' ∈ n) :
    formatPhoneNumber n = n := by
  unfold formatPhoneNumber
  rw [if_pos h]

/-- C9: formatPhoneNumber is idempotent — every output contains an `@`
character and any input containing `@` is returned unchanged, so a second
application is the identity. -/
theorem formatPhoneNumber_idempotent (s : List Char) :
    formatPhoneNumber (formatPhoneNumber s) = formatPhoneNumber s :=
  formatPhoneNumber_of_mem _ (formatPhoneNumber_has_at s)

/-- Helper: characterization of a valid phone number. -/
theorem validatePhoneNumber_valid_iff (number : Option (List Char)) :
    (validatePhoneNumber number).valid = true ↔
      ∃ n, number = some n ∧ ¬ n.isEmpty ∧
        10 ≤ (n.filter (·.isDigit)).length ∧ (n.filter (·.isDigit)).length ≤ 15 := by
  cases number with
  | none => simp [validatePhoneNumber]
  | some n =>
    simp only [validatePhoneNumber]
    split_ifs with h1 h2 h3 <;> simp_all

/-- Helper: characterization of a valid message. -/
theorem validateMessage_valid_iff (message : JSArg) :
    (validateMessage message).valid = true ↔
      ∃ s, message = .str s ∧ ¬ s.isEmpty ∧ s.length ≤ 4096 := by
  cases message with
  | undef => simp [validateMessage]
  | nonString => simp [validateMessage]
  | str s =>
    simp only [validateMessage]
    split_ifs with h1 h2 <;> simp_all

/-- Helper: an invalid phone number always carries an error message. -/
theorem validatePhoneNumber_error (number : Option (List Char)) :
    (validatePhoneNumber number).valid = false →
    (validatePhoneNumber number).message.isSome := by
  cases number with
  | none => simp [validatePhoneNumber]
  | some n => simp only [validatePhoneNumber]; split_ifs <;> simp

/-- Helper: an invalid message always carries an error message. -/
theorem validateMessage_error (message : JSArg) :
    (validateMessage message).valid = false →
    (validateMessage message).message.isSome := by
  cases message with
  | undef => simp [validateMessage]
  | nonString => simp [validateMessage]
  | str s => simp only [validateMessage]; split_ifs <;> simp

/-- C10: sendTextMessage validates before sending and fails closed: for an
absent number, a number with fewer than 10 or more than 15 digits, an
absent or non-string or over-4096-character message, or a null or
unauthenticated socket, it returns success = false with an error
description and never invokes socket.sendMessage. -/
theorem sendTextMessage_fails_closed
    (socket : Option WASocket) (number : Option (List Char)) (message : JSArg)
    (hbad : number = none
      ∨ (∃ n, number = some n ∧
          ((n.filter (·.isDigit)).length < 10 ∨ 15 < (n.filter (·.isDigit)).length))
      ∨ message = .undef ∨ message = .nonString
      ∨ (∃ s, message = .str s ∧ 4096 < s.length)
      ∨ socket = none ∨ (∃ w, socket = some w ∧ w.user = none)) :
    (sendTextMessage socket number message).success = false
    ∧ (sendTextMessage socket number message).error.isSome
    ∧ (sendTextMessage socket number message).sentTo = none := by
  by_cases hnum : (validatePhoneNumber number).valid
  · by_cases hmsg : (validateMessage message).valid
    · have hsock : socket = none ∨ ∃ w, socket = some w ∧ w.user = none := by
        rcases hbad with h | h | h | h | h | h | h
        · rw [validatePhoneNumber_valid_iff] at hnum
          obtain ⟨n, hn, _⟩ := hnum
          simp [h] at hn
        · rw [validatePhoneNumber_valid_iff] at hnum
          obtain ⟨n, hn, _, hlo, hhi⟩ := hnum
          obtain ⟨m, hm, hbadlen⟩ := h
          rw [hm] at hn
          cases Option.some.inj hn
          omega
        · rw [validateMessage_valid_iff] at hmsg
          obtain ⟨s, hs, _⟩ := hmsg
          simp [h] at hs
        · rw [validateMessage_valid_iff] at hmsg
          obtain ⟨s, hs, _⟩ := hmsg
          simp [h] at hs
        · rw [validateMessage_valid_iff] at hmsg
          obtain ⟨s, hs, _, hlen⟩ := hmsg
          obtain ⟨t, ht, hbadlen⟩ := h
          rw [ht] at hs
          cases JSArg.str.inj hs
          omega
        · exact Or.inl h
        · exact Or.inr h
      unfold sendTextMessage
      rcases hsock with h | ⟨w, hw, hu⟩
      · subst h
        simp [hnum, hmsg]
      · subst hw
        simp [hnum, hmsg, hu]
    · have herr := validateMessage_error message (by simpa using hmsg)
      unfold sendTextMessage
      simp [hnum, hmsg, herr]
  · have herr := validatePhoneNumber_error number (by simpa using hnum)
    unfold sendTextMessage
    simp [hnum, herr]

/-- Witness for sendTextMessage_fails_closed at a concrete bad input
(a null socket). -/
theorem sendTextMessage_fails_closed_witness :
    (sendTextMessage none (some "081234567890".toList) (.str "hi".toList)).success = false
    ∧ (sendTextMessage none (some "081234567890".toList) (.str "hi".toList)).error.isSome
    ∧ (sendTextMessage none (some "081234567890".toList) (.str "hi".toList)).sentTo = none :=
  sendTextMessage_fails_closed none (some "081234567890".toList) (.str "hi".toList)
    (Or.inr (Or.inr (Or.inr (Or.inr (Or.inr (Or.inl rfl))))))

/-- Helper: a lone percent pattern matches any string. -/
theorem likeMatch_percent_nil (s : List Char) : likeMatch ['%'] s = true := by
  induction s with
  | nil => simp [likeMatch]
  | cons c s ih => simp [likeMatch, ih]

/-- Helper: on a wildcard-free prefix followed by a percent, the LIKE
matcher is exactly a string-prefix test. -/
theorem likeMatch_prefix_percent (p : List Char) :
    ∀ s, (∀ c ∈ p, c ≠ '%' ∧ c ≠ '_') → (likeMatch (p ++ ['%']) s ↔ p <+: s) := by
  induction p with
  | nil =>
    intro s _
    simp [likeMatch_percent_nil]
  | cons a p ih =>
    intro s hp
    have ha := hp a (by simp)
    cases s with
    | nil =>
      simp [likeMatch, ha.1]
    | cons c s =>
      have hrest : ∀ x ∈ p, x ≠ '%' ∧ x ≠ '_' := fun x hx => hp x (by simp [hx])
      simp [likeMatch, ha.1, ha.2, ih s hrest, List.cons_prefix_cons, and_comm]

/-- Helper: membership in the result of clearSession, for a wildcard-free
sessionId, is exactly membership in the table minus the `sessionId:` prefix. -/
theorem clearSession_mem (sid : List Char) (table : List WaRow) (row : WaRow)
    (hwild : ∀ c ∈ sid, c ≠ '%' ∧ c ≠ '_') :
    row ∈ clearSession sid table ↔ row ∈ table ∧ ¬ ((sid ++ [':']) <+: row.id) := by
  have h : likeMatch (sid ++ [':', '%']) row.id = true ↔ (sid ++ [':']) <+: row.id := by
    have e : sid ++ [':', '%'] = (sid ++ [':']) ++ ['%'] := by simp
    rw [e]
    refine likeMatch_prefix_percent (sid ++ [':']) row.id ?_
    intro c hc
    rcases List.mem_append.mp hc with h1 | h1
    · exact hwild c h1
    · simp at h1; subst h1; decide
  unfold clearSession
  rw [List.mem_filter]
  constructor
  · rintro ⟨h1, h2⟩
    refine ⟨h1, fun hpre => ?_⟩
    rw [← h] at hpre
    simp [hpre] at h2
  · rintro ⟨h1, h2⟩
    refine ⟨h1, ?_⟩
    have hfalse : likeMatch (sid ++ [':', '%']) row.id = false := by
      cases hb : likeMatch (sid ++ [':', '%']) row.id
      · rfl
      · exact absurd (h.mp hb) h2
    simp [hfalse]

/-- C3: clearSession for session `abc` deletes exactly the rows whose
composite key starts with `abc:` and keeps every row of session
`abc-extra` (whose keys start with `abc-extra:`). -/
theorem clearSession_exact_segment (table : List WaRow) :
    (∀ row, row ∈ clearSession "abc".toList table ↔
      row ∈ table ∧ ¬ ("abc:".toList <+: row.id))
    ∧ (∀ row ∈ table, "abc-extra:".toList <+: row.id →
        row ∈ clearSession "abc".toList table) := by
  have hmem := fun row => clearSession_mem "abc".toList table row (by decide)
  have e : "abc".toList ++ [':'] = "abc:".toList := rfl
  constructor
  · intro row
    rw [hmem row, e]
  · intro row hrow hpre
    rw [hmem row, e]
    refine ⟨hrow, fun habc => ?_⟩
    rcases List.prefix_or_prefix_of_prefix habc hpre with h | h
    · exact absurd h (by decide)
    · exact absurd h (by decide)

/-- Helper: the logout pipeline on an absent session is rejected by the
middleware with a 404 error body, leaves the Registry untouched and never
reaches the controller. -/
theorem logoutEndpoint_absent (reg : Registry) (sessionId : String)
    (h : registryGet reg sessionId = none) :
    (logoutEndpoint reg sessionId).response.httpStatus = 404
    ∧ (logoutEndpoint reg sessionId).response.success = false
    ∧ (logoutEndpoint reg sessionId).response.error.isSome
    ∧ (logoutEndpoint reg sessionId).registry = reg
    ∧ (logoutEndpoint reg sessionId).socketLogoutCalled = false
    ∧ (logoutEndpoint reg sessionId).clearSessionCalled = false := by
  unfold logoutEndpoint validateSession
  rw [h]
  simp

/-- C6 counterexample: calling the exposed logout operation for
`nonexistent-id` on an empty Registry is answered with an HTTP 404 error
response (success = false, error body present), so the call, contrary to
the claim, is an error. -/
theorem logout_absent_counterexample :
    ¬ ((logoutEndpoint [] "nonexistent-id").response.success = true
        ∨ (logoutEndpoint [] "nonexistent-id").response.error = none) := by
  decide

/-- C6 (amended): invoking the exposed logout operation for a sessionId
with no Registry entry is rejected by the validateSession middleware with
a 404 error response; it does not throw, does not mutate the Registry, and
the logout controller (socket logout / credential wipe / delete) never
runs. -/
theorem logout_absent_rejected (reg : Registry) (sessionId : String)
    (h : registryGet reg sessionId = none) :
    (logoutEndpoint reg sessionId).response.httpStatus = 404
    ∧ (logoutEndpoint reg sessionId).response.success = false
    ∧ (logoutEndpoint reg sessionId).registry = reg
    ∧ (logoutEndpoint reg sessionId).socketLogoutCalled = false
    ∧ (logoutEndpoint reg sessionId).clearSessionCalled = false :=
  by
  have h2 := logoutEndpoint_absent reg sessionId h
  exact ⟨h2.1, h2.2.1, h2.2.2.2.1, h2.2.2.2.2.1, h2.2.2.2.2.2⟩

/-- Witness for logout_absent_rejected on the empty Registry. -/
theorem logout_absent_rejected_witness :
    (logoutEndpoint [] "nonexistent-id").response.httpStatus = 404
    ∧ (logoutEndpoint [] "nonexistent-id").response.success = false
    ∧ (logoutEndpoint [] "nonexistent-id").registry = []
    ∧ (logoutEndpoint [] "nonexistent-id").socketLogoutCalled = false
    ∧ (logoutEndpoint [] "nonexistent-id").clearSessionCalled = false :=
  logout_absent_rejected [] "nonexistent-id" rfl

/-- C7: status queries for an unknown sessionId answer the exact
`disconnected` placeholder snapshot instead of throwing, and the QR query
answers an HTTP 200 message response (never an error) whenever no
challenge is pending, with the explicit `not available yet` text whenever
a session exists but is not open. -/
theorem status_qr_best_effort (reg : Registry) (sessionId : String) :
    (registryGet reg sessionId = none →
      statusEndpoint reg sessionId =
        ⟨200, true, "disconnected".toList, false, none, false⟩)
    ∧ (registryGet reg sessionId = none →
        (qrEndpoint reg sessionId).httpStatus = 200
        ∧ (qrEndpoint reg sessionId).success = false
        ∧ (qrEndpoint reg sessionId).message.isSome)
    ∧ (∀ sd, registryGet reg sessionId = some sd →
        jsTruthyStr sd.connectionState.qr = false →
        (qrEndpoint reg sessionId).httpStatus = 200
        ∧ (qrEndpoint reg sessionId).message.isSome)
    ∧ (∀ sd, registryGet reg sessionId = some sd →
        jsTruthyStr sd.connectionState.qr = false →
        sd.connectionState.connection ≠ "open".toList →
        qrEndpoint reg sessionId =
          ⟨200, false, some "QR code not available yet, please wait...".toList, none⟩) := by
  refine ⟨?_, ?_, ?_, ?_⟩
  · intro h
    unfold statusEndpoint validateSession
    rw [h]
    simp [getStatus]
  · intro h
    unfold qrEndpoint validateSession
    rw [h]
    simp [getQrCode]
  · intro sd h hq
    unfold qrEndpoint validateSession
    rw [h]
    simp only [getQrCode, hq, Bool.not_false, if_true]
    split <;> simp
  · intro sd h hq hopen
    have hopen2 : sd.connectionState.connection = ('o' :: 'p' :: 'e' :: 'n' :: []) → False :=
      hopen
    unfold qrEndpoint validateSession
    rw [h]
    simp [getQrCode, hq, hopen]
    exact hopen2

/-- Witness for status_qr_best_effort: an empty Registry for the status
and unknown-session parts, and a one-session Registry in `connecting`
state with no QR for the explicit message part. -/
theorem status_qr_best_effort_witness :
    statusEndpoint [] "main-session" =
      ⟨200, true, "disconnected".toList, false, none, false⟩
    ∧ qrEndpoint [("s", ⟨none, false, ⟨none, "connecting".toList, none, none⟩⟩)] "s" =
      ⟨200, false, some "QR code not available yet, please wait...".toList, none⟩ :=
  ⟨(status_qr_best_effort [] "main-session").1 rfl,
   (status_qr_best_effort [("s", ⟨none, false, ⟨none, "connecting".toList, none, none⟩⟩)] "s").2.2.2
      ⟨none, false, ⟨none, "connecting".toList, none, none⟩⟩ (by decide) rfl (by decide)⟩

/-- Helper: the keep-alive sweep processes a concatenation of Registry
snapshots independently. -/
theorem keepAliveSweep_append (l1 l2 : List KeepAliveSession) :
    keepAliveSweep (l1 ++ l2) =
      ((keepAliveSweep l1).1 ++ (keepAliveSweep l2).1,
       (keepAliveSweep l1).2 ++ (keepAliveSweep l2).2) := by
  induction l1 with
  | nil => simp [keepAliveSweep]
  | cons s rest ih =>
    simp only [List.cons_append, keepAliveSweep, ih]
    split_ifs with h1 h2 <;> simp [ih]

/-- Helper: every session with a socket and status open receives its ping
during the sweep. -/
theorem keepAliveSweep_mem_live (l : List KeepAliveSession) (t : KeepAliveSession)
    (ht : t ∈ l) (h1 : t.hasSocket = true) (h2 : t.connection = "open".toList) :
    t.id ∈ (keepAliveSweep l).1 := by
  induction l with
  | nil => simp at ht
  | cons a rest ih =>
    rcases List.mem_cons.mp ht with h | h
    · subst h
      simp [keepAliveSweep, h1, h2]
    · have hmem := ih h
      by_cases hc : a.hasSocket = true ∧ a.connection = "open".toList
      · have hc2 : a.hasSocket = true ∧ a.connection = ('o' :: 'p' :: 'e' :: 'n' :: []) := hc
        simp [keepAliveSweep, hc, hc2, hmem]
      · have hc2 : ¬ (a.hasSocket = true ∧ a.connection = ('o' :: 'p' :: 'e' :: 'n' :: [])) := hc
        simp [keepAliveSweep, hc, hc2, hmem]

/-- C8: the keep-alive sweep isolates per-session failures: when the ping
of one open session throws, its error is caught and recorded for that
session, and every other open session with a live handle still receives
its ping in the same sweep. -/
theorem keepAlive_fault_isolation (pre post : List KeepAliveSession)
    (s : KeepAliveSession) (hs : s.hasSocket = true)
    (hopen : s.connection = "open".toList) (hthrow : s.pingThrows = true) :
    (keepAliveSweep (pre ++ s :: post)).1 =
      (keepAliveSweep pre).1 ++ s.id :: (keepAliveSweep post).1
    ∧ s.id ∈ (keepAliveSweep (pre ++ s :: post)).2
    ∧ ∀ t ∈ post, t.hasSocket = true → t.connection = "open".toList →
        t.id ∈ (keepAliveSweep (pre ++ s :: post)).1 := by
  have hmid : keepAliveSweep (s :: post) =
      (s.id :: (keepAliveSweep post).1, s.id :: (keepAliveSweep post).2) := by
    simp [keepAliveSweep, hs, hopen, hthrow]
  have happ := keepAliveSweep_append pre (s :: post)
  refine ⟨?_, ?_, ?_⟩
  · rw [happ, hmid]
  · rw [happ, hmid]
    exact List.mem_append_right _ (List.mem_cons_self _ _)
  · intro t ht h1 h2
    rw [happ, hmid]
    exact List.mem_append_right _
      (List.mem_cons_of_mem _ (keepAliveSweep_mem_live post t ht h1 h2))

/-- Witness for keepAlive_fault_isolation: three open sessions where the
second's ping throws; the first and third are still pinged. -/
theorem keepAlive_fault_isolation_witness :
    "s1" ∈ (keepAliveSweep ([⟨"s1", true, "open".toList, false⟩] ++
        ⟨"s2", true, "open".toList, true⟩ :: [⟨"s3", true, "open".toList, false⟩])).1
    ∧ "s2" ∈ (keepAliveSweep ([⟨"s1", true, "open".toList, false⟩] ++
        ⟨"s2", true, "open".toList, true⟩ :: [⟨"s3", true, "open".toList, false⟩])).2
    ∧ "s3" ∈ (keepAliveSweep ([⟨"s1", true, "open".toList, false⟩] ++
        ⟨"s2", true, "open".toList, true⟩ :: [⟨"s3", true, "open".toList, false⟩])).1 := by
  have h := keepAlive_fault_isolation [⟨"s1", true, "open".toList, false⟩]
    [⟨"s3", true, "open".toList, false⟩] ⟨"s2", true, "open".toList, true⟩ rfl rfl rfl
  refine ⟨?_, h.2.1, h.2.2 ⟨"s3", true, "open".toList, false⟩ ?_ rfl rfl⟩
  · rw [h.1]
    decide
  · simp

/-- Witness for clearSession_exact_segment at a concrete two-session table. -/
theorem clearSession_exact_segment_witness :
    ((⟨"abc-extra:auth:creds".toList, "v".toList⟩ : WaRow) ∈
      clearSession "abc".toList
        [⟨"abc:auth:creds".toList, "v".toList⟩, ⟨"abc-extra:auth:creds".toList, "v".toList⟩])
    ∧ ((⟨"abc:auth:creds".toList, "v".toList⟩ : WaRow) ∉
      clearSession "abc".toList
        [⟨"abc:auth:creds".toList, "v".toList⟩, ⟨"abc-extra:auth:creds".toList, "v".toList⟩]) := by
  constructor
  · exact (clearSession_exact_segment _).2 _ (by simp) (by decide)
  · intro h
    exact (((clearSession_exact_segment _).1 _).mp h).2 (by decide)

/-- C4: on a connection-close event the disconnect reason is classified
binarily: the logged-out status code is terminal (credentials wiped via
clearSession, Registry entry deleted, no reconnect scheduled); every other
status code schedules exactly one reconnect with a fixed 10-second delay
and does not wipe credentials or delete the entry. -/
theorem close_classification (sessionId : String) (user : Option SocketUser)
    (uqr : Option (List Char)) (cs : ConnectionState) (code : Option Nat) :
    (code = some loggedOutReason →
      (handleConnectionUpdate sessionId user ⟨some "close".toList, uqr, code⟩ cs).2.clearSessionCalled = true
      ∧ (handleConnectionUpdate sessionId user ⟨some "close".toList, uqr, code⟩ cs).2.registryDeleted = true
      ∧ (handleConnectionUpdate sessionId user ⟨some "close".toList, uqr, code⟩ cs).2.reconnectDelaysMs = [])
    ∧ (code ≠ some loggedOutReason →
      (handleConnectionUpdate sessionId user ⟨some "close".toList, uqr, code⟩ cs).2.reconnectDelaysMs = [10000]
      ∧ (handleConnectionUpdate sessionId user ⟨some "close".toList, uqr, code⟩ cs).2.clearSessionCalled = false
      ∧ (handleConnectionUpdate sessionId user ⟨some "close".toList, uqr, code⟩ cs).2.registryDeleted = false) := by
  constructor
  · intro hcode
    subst hcode
    simp [handleConnectionUpdate]
  · intro hcode
    simp [handleConnectionUpdate, hcode]

/-- Witness for close_classification: the logged-out code 401 is terminal
and the stream-error code 515 schedules one 10-second reconnect. -/
theorem close_classification_witness :
    ((handleConnectionUpdate "main-session" none ⟨some "close".toList, none, some 401⟩
        ⟨none, "open".toList, none, none⟩).2.clearSessionCalled = true
      ∧ (handleConnectionUpdate "main-session" none ⟨some "close".toList, none, some 401⟩
        ⟨none, "open".toList, none, none⟩).2.registryDeleted = true
      ∧ (handleConnectionUpdate "main-session" none ⟨some "close".toList, none, some 401⟩
        ⟨none, "open".toList, none, none⟩).2.reconnectDelaysMs = [])
    ∧ ((handleConnectionUpdate "main-session" none ⟨some "close".toList, none, some 515⟩
        ⟨none, "open".toList, none, none⟩).2.reconnectDelaysMs = [10000]
      ∧ (handleConnectionUpdate "main-session" none ⟨some "close".toList, none, some 515⟩
        ⟨none, "open".toList, none, none⟩).2.clearSessionCalled = false
      ∧ (handleConnectionUpdate "main-session" none ⟨some "close".toList, none, some 515⟩
        ⟨none, "open".toList, none, none⟩).2.registryDeleted = false) :=
  ⟨(close_classification "main-session" none none ⟨none, "open".toList, none, none⟩ (some 401)).1 rfl,
   (close_classification "main-session" none none ⟨none, "open".toList, none, none⟩ (some 515)).2 (by decide)⟩

/-- C5 counterexample: a session that previously resolved both a phone
number and a display name gets a fresh record whose display name is reset
to null, so the resolved identity is not fully preserved as claimed. -/
theorem connect_fresh_record_counterexample :
    (freshSessionData (some ⟨none, true,
        ⟨none, "close".toList, some "628123".toList, some "Alice".toList⟩⟩)).connectionState.name
      ≠ (⟨none, true,
        ⟨none, "close".toList, some "628123".toList, some "Alice".toList⟩⟩ : SessionData).connectionState.name := by
  decide

/-- C5 (amended): the fresh record installed by connect has status
`connecting`, a cleared QR payload, and preserves the previously resolved
phone number — but the previously resolved display name is not carried
over (it is reset to null). -/
theorem connect_fresh_record (existing : SessionData) (p : List Char)
    (hp : existing.connectionState.phoneNumber = some p) (hne : p ≠ []) :
    (freshSessionData (some existing)).connectionState.connection = "connecting".toList
    ∧ (freshSessionData (some existing)).connectionState.qr = none
    ∧ (freshSessionData (some existing)).connectionState.phoneNumber = some p
    ∧ (freshSessionData (some existing)).connectionState.name = none := by
  refine ⟨rfl, rfl, ?_, rfl⟩
  simp [freshSessionData, jsOrNull, jsTruthyStr, hp, hne]

/-- Witness for connect_fresh_record at a concrete previously-open record. -/
theorem connect_fresh_record_witness :
    (freshSessionData (some ⟨none, true,
        ⟨none, "close".toList, some "628123".toList, some "Alice".toList⟩⟩)).connectionState.connection = "connecting".toList
    ∧ (freshSessionData (some ⟨none, true,
        ⟨none, "close".toList, some "628123".toList, some "Alice".toList⟩⟩)).connectionState.qr = none
    ∧ (freshSessionData (some ⟨none, true,
        ⟨none, "close".toList, some "628123".toList, some "Alice".toList⟩⟩)).connectionState.phoneNumber = some "628123".toList
    ∧ (freshSessionData (some ⟨none, true,
        ⟨none, "close".toList, some "628123".toList, some "Alice".toList⟩⟩)).connectionState.name = none :=
  connect_fresh_record
    ⟨none, true, ⟨none, "close".toList, some "628123".toList, some "Alice".toList⟩⟩
    "628123".toList rfl (by decide)

/-- C1: the connect guard makes a second call a no-op whenever the current
record is `open` or `connecting` (no record installed, no handle created,
no cleanup performed), and in the two-calls-in-rapid-succession race the
second call ends as a no-op at every interleaving position while exactly
one transport handle is ever created and registered for the session. -/
theorem connect_dedup (sid : String) :
    (∀ (st : GatewayState) (rid : Nat),
      List.lookup sid st.registry = some rid →
      ((st.heap.getD rid default).connectionState.connection = "open".toList
        ∨ (st.heap.getD rid default).connectionState.connection = "connecting".toList) →
      connectStep sid .start st = (.noop, st))
    ∧ (∀ (k : Fin 3),
        (runTwoConnects sid k).2.1 = .noop
        ∧ (runTwoConnects sid k).1 = .done 0
        ∧ (runTwoConnects sid k).2.2.nextHandle = 1
        ∧ List.lookup sid (runTwoConnects sid k).2.2.registry = some 0
        ∧ ((runTwoConnects sid k).2.2.heap.getD 0 default).socket = some ⟨0, none⟩
        ∧ (runTwoConnects sid k).2.2.endedHandles = []) := by
  constructor
  · intro st rid hl hconn
    simp only [connectStep, hl]
    rw [if_pos hconn]
  · intro k
    fin_cases k <;>
      simp [runTwoConnects, connectStep, installFresh, emptyGateway, freshSessionData,
        jsOrNull, jsTruthyStr, List.lookup]

/-- Witness for connect_dedup's guard part: a registry holding an open
record for `main-session` makes connect return no-op without any state
change. -/
theorem connect_dedup_witness :
    connectStep "main-session" .start
      ⟨[⟨some ⟨7, none⟩, true, ⟨none, "open".toList, none, none⟩⟩],
        [("main-session", 0)], 8, []⟩ =
      (.noop, ⟨[⟨some ⟨7, none⟩, true, ⟨none, "open".toList, none, none⟩⟩],
        [("main-session", 0)], 8, []⟩) :=
  (connect_dedup "main-session").1
    ⟨[⟨some ⟨7, none⟩, true, ⟨none, "open".toList, none, none⟩⟩], [("main-session", 0)], 8, []⟩
    0 rfl (Or.inl rfl)

/-- Helper: the base64 alphabet decodes its own characters. -/
theorem b64Index_b64Char : ∀ n, n < 64 → b64Index (b64Char n) = n := by decide

/-- Helper: no alphabet character is the padding character. -/
theorem b64Char_ne_pad : ∀ n, n < 64 → b64Char n ≠ '=' := by decide

/-- Helper: the byte-level base64 codec round-trips every byte list. -/
theorem base64_roundtrip : ∀ (l : List Nat), (∀ b ∈ l, b < 256) →
    base64Decode (base64Encode l) = l
  | [], _ => rfl
  | [a], h => by
    have ha : a < 256 := h a (by simp)
    have h1 : a / 4 < 64 := by omega
    have h2 : a % 4 * 16 < 64 := by omega
    simp [base64Encode, base64Decode, b64Index_b64Char _ h1, b64Index_b64Char _ h2]
    omega
  | [a, b], h => by
    have ha : a < 256 := h a (by simp)
    have hb : b < 256 := h b (by simp)
    have h1 : a / 4 < 64 := by omega
    have h2 : a % 4 * 16 + b / 16 < 64 := by omega
    have h3 : b % 16 * 4 < 64 := by omega
    have hne : b64Char (b % 16 * 4) ≠ '=' := b64Char_ne_pad _ h3
    simp [base64Encode, base64Decode, hne, b64Index_b64Char _ h1, b64Index_b64Char _ h2,
      b64Index_b64Char _ h3]
    omega
  | a :: b :: c :: d :: rest, h => by
    have ha : a < 256 := h a (by simp)
    have hb : b < 256 := h b (by simp)
    have hc : c < 256 := h c (by simp)
    have ih : base64Decode (base64Encode (d :: rest)) = d :: rest := by
      refine base64_roundtrip (d :: rest) ?_
      intro x hx
      refine h x ?_
      simp only [List.mem_cons] at hx ⊢
      tauto
    have h1 : a / 4 < 64 := by omega
    have h2 : a % 4 * 16 + b / 16 < 64 := by omega
    have h3 : b % 16 * 4 + c / 64 < 64 := by omega
    have h4 : c % 64 < 64 := by omega
    have hne3 : b64Char (b % 16 * 4 + c / 64) ≠ '=' := b64Char_ne_pad _ h3
    have hne4 : b64Char (c % 64) ≠ '=' := b64Char_ne_pad _ h4
    simp [base64Encode, base64Decode, hne3, hne4, b64Index_b64Char _ h1,
      b64Index_b64Char _ h2, b64Index_b64Char _ h3, b64Index_b64Char _ h4, ih]
    omega
  | [a, b, c], h => by
    have ha : a < 256 := h a (by simp)
    have hb : b < 256 := h b (by simp)
    have hc : c < 256 := h c (by simp)
    have h1 : a / 4 < 64 := by omega
    have h2 : a % 4 * 16 + b / 16 < 64 := by omega
    have h3 : b % 16 * 4 + c / 64 < 64 := by omega
    have h4 : c % 64 < 64 := by omega
    have hne3 : b64Char (b % 16 * 4 + c / 64) ≠ '=' := b64Char_ne_pad _ h3
    have hne4 : b64Char (c % 64) ≠ '=' := b64Char_ne_pad _ h4
    simp [base64Encode, base64Decode, hne3, hne4, b64Index_b64Char _ h1,
      b64Index_b64Char _ h2, b64Index_b64Char _ h3, b64Index_b64Char _ h4]
    omega

/-- Helper: encoding an object's properties commutes with property lookup. -/
theorem objLookup_map : ∀ (kvs : JSObj) (key : List Char),
    objLookup (bufferToBase64Obj kvs) key = (objLookup kvs key).map bufferToBase64
  | .nil, _ => rfl
  | .cons k v tl, key => by
    show (if k = key then some (bufferToBase64 v) else objLookup (bufferToBase64Obj tl) key)
        = (if k = key then some v else objLookup tl key).map bufferToBase64
    split_ifs with hk
    · rfl
    · exact objLookup_map tl key

/-- Helper: the encoder never produces a string from a pure value. -/
theorem bufferToBase64_ne_str (v : JSVal) (hp : isPureVal v = true) (s : List Char) :
    bufferToBase64 v ≠ .str s := by
  cases v with
  | null => simp [bufferToBase64]
  | num n => simp [isPureVal] at hp
  | str t => simp [isPureVal] at hp
  | buf bs => simp [bufferToBase64]
  | arr xs => simp [bufferToBase64]
  | obj kvs => simp [bufferToBase64]

/-- Helper: looked-up property values of a pure object are pure. -/
theorem isPure_objLookup : ∀ (kvs : JSObj) (key : List Char) (v : JSVal),
    isPureObj kvs = true → objLookup kvs key = some v → isPureVal v = true
  | .nil, _, _ => by
    intro _ hl
    exact Option.noConfusion hl
  | .cons k w tl, key, v => by
    intro hp hl
    have h1 : isPureVal w = true ∧ isPureObj tl = true := by
      simpa [isPureObj, Bool.and_eq_true] using hp
    by_cases hk : k = key
    · rw [show objLookup (.cons k w tl) key
          = if k = key then some w else objLookup tl key from rfl, if_pos hk] at hl
      cases hl
      exact h1.1
    · rw [show objLookup (.cons k w tl) key
          = if k = key then some w else objLookup tl key from rfl, if_neg hk] at hl
      exact isPure_objLookup tl key v h1.2 hl

/-- Helper: when the `type` property of an object is not a string, the
decoder takes the generic recursive branch. -/
theorem decode_obj_generic (kvs : JSObj)
    (h : ∀ s, objLookup kvs "type".toList ≠ some (.str s)) :
    base64ToBuffer (.obj kvs) = .obj (base64ToBufferObj kvs) := by
  simp only [base64ToBuffer]
  cases ht : objLookup kvs "type".toList with
  | none => rfl
  | some w =>
    cases w with
    | str s => exact absurd ht (h s)
    | null => rfl
    | num n => rfl
    | buf bs => rfl
    | arr xs => rfl
    | obj kvs2 => rfl

mutual
/-- Helper: decode of encode is the identity on pure values. -/
theorem roundtripVal : ∀ (v : JSVal), isPureVal v = true →
    base64ToBuffer (bufferToBase64 v) = v
  | .null, _ => rfl
  | .num n, h => by simp [isPureVal] at h
  | .str s, h => by simp [isPureVal] at h
  | .buf bs, h => by
    have hb : ∀ b ∈ bs, b < 256 := by
      simpa [isPureVal, List.all_eq_true] using h
    show JSVal.buf (base64Decode (base64Encode bs)) = .buf bs
    rw [base64_roundtrip bs hb]
  | .arr xs, h => by
    have h2 : isPureArr xs = true := by simpa [isPureVal] using h
    show JSVal.arr (base64ToBufferArr (bufferToBase64Arr xs)) = .arr xs
    rw [roundtripArr xs h2]
  | .obj kvs, h => by
    have hpure : isPureObj kvs = true := by simpa [isPureVal] using h
    have hgen : ∀ s, objLookup (bufferToBase64Obj kvs) "type".toList ≠ some (.str s) := by
      intro s hcontra
      rw [objLookup_map kvs] at hcontra
      cases hl : objLookup kvs "type".toList with
      | none =>
        rw [hl] at hcontra
        exact Option.noConfusion hcontra
      | some w =>
        rw [hl] at hcontra
        have hw := isPure_objLookup kvs "type".toList w hpure hl
        have hws : bufferToBase64 w = .str s := by simpa using hcontra
        exact bufferToBase64_ne_str w hw s hws
    show base64ToBuffer (.obj (bufferToBase64Obj kvs)) = .obj kvs
    rw [decode_obj_generic _ hgen, roundtripObj kvs hpure]
/-- Helper: decode of encode is the identity on pure arrays. -/
theorem roundtripArr : ∀ (xs : JSArr), isPureArr xs = true →
    base64ToBufferArr (bufferToBase64Arr xs) = xs
  | .nil, _ => rfl
  | .cons v tl, h => by
    have h1 : isPureVal v = true ∧ isPureArr tl = true := by
      simpa [isPureArr, Bool.and_eq_true] using h
    show JSArr.cons (base64ToBuffer (bufferToBase64 v))
        (base64ToBufferArr (bufferToBase64Arr tl)) = .cons v tl
    rw [roundtripVal v h1.1, roundtripArr tl h1.2]
/-- Helper: decode of encode is the identity on pure objects. -/
theorem roundtripObj : ∀ (kvs : JSObj), isPureObj kvs = true →
    base64ToBufferObj (bufferToBase64Obj kvs) = kvs
  | .nil, _ => rfl
  | .cons k v tl, h => by
    have h1 : isPureVal v = true ∧ isPureObj tl = true := by
      simpa [isPureObj, Bool.and_eq_true] using h
    show JSObj.cons k (base64ToBuffer (bufferToBase64 v))
        (base64ToBufferObj (bufferToBase64Obj tl)) = .cons k v tl
    rw [roundtripVal v h1.1, roundtripObj tl h1.2]
end

/-- C2: for every value composed of arbitrarily nested plain objects,
arrays, byte buffers (including zero-length) and null — including the
empty object and empty array — the decode of the encode is deeply equal
to the original: base64ToBuffer (bufferToBase64 v) = v. -/
theorem decode_encode_roundtrip (v : JSVal) (h : isPureVal v = true) :
    base64ToBuffer (bufferToBase64 v) = v :=
  roundtripVal v h

/-- Witness for decode_encode_roundtrip on a five-level nested mixed
value with buffers, a zero-length buffer, an empty object, an empty array
and null. -/
theorem decode_encode_roundtrip_witness :
    isPureVal sampleNested = true
    ∧ base64ToBuffer (bufferToBase64 sampleNested) = sampleNested :=
  ⟨rfl, decode_encode_roundtrip sampleNested rfl⟩

end WaGateway
